import Mathlib

/-!
Shallow embedding of the multi-token ledger core
(`src/multi_token/src/core/core_impl.rs`) and proofs checking the
natural-language specification against it.

Modelling conventions:
* `TreeMap`/`LookupMap`/`HashMap` collections become association lists
  (`List (Key × Value)`); `insert` overwrites an existing key in place,
  `remove` deletes it, `get` is `alLookup`.
* `u128`/`u64` balances and counters become `Nat` (the Rust code performs
  no arithmetic on them other than comparison and the probe's `u64`
  subtractions, so no wraparound is reachable).
* A Rust `panic!` / `env::panic` / failed `expect` / `Option::unwrap()` on
  `None` aborts the NEAR call and reverts every state change of that call;
  it is modelled as `Except.error` carrying an `MTError` tag, with no
  state returned.
* Host-environment details with no ledger semantics (storage key
  bookkeeping, `assert_one_yocto`, gas constants, logging) are omitted;
  `env::predecessor_account_id()` becomes an explicit `sender_id`
  parameter.
* Writing into the inner balance map obtained from
  `self.ft_owners_by_id.get(token_id)` is modelled as persisted (the
  near-sdk inner `TreeMap` writes through its storage key), i.e. the
  updated inner map is written back under `token_id`.
-/

namespace MultiTokenStd

/-- `TokenType` from `token.rs` as used by `core_impl.rs`: every token id
is indexed as either non-fungible or fungible. -/
inductive TokenType where
  | NFT
  | FT
deriving DecidableEq, Repr

abbrev TokenId := String
abbrev AccountId := String

/-- Association-list lookup, modelling `LookupMap::get` / `TreeMap::get` /
`HashMap::get`. -/
def alLookup {α : Type} : List (String × α) → String → Option α
  | [], _ => none
  | (k', v') :: rest, k => if k' = k then some v' else alLookup rest k

/-- Association-list insert, modelling map `insert`: overwrite the value
of an existing key, otherwise append a fresh entry. -/
def alInsert {α : Type} : List (String × α) → String → α → List (String × α)
  | [], k, v => [(k, v)]
  | (k', v') :: rest, k, v =>
    if k' = k then (k, v) :: rest else (k', v') :: alInsert rest k v

/-- Association-list removal, modelling map `remove`. -/
def alRemove {α : Type} : List (String × α) → String → List (String × α)
  | [], _ => []
  | (k', v') :: rest, k =>
    if k' = k then rest else (k', v') :: alRemove rest k

/-- The fields of `TokenMetadata` (`metadata.rs`, referenced by the storage
probe) that the probe writes; modelled structurally, their contents carry
no ledger semantics. -/
structure TokenMetadata where
  title : Option String
  description : Option String
  media : Option String
  media_hash : Option (List Nat)
  copies : Option Nat
deriving DecidableEq, Repr

/-- The `MultiToken` aggregate (struct `MultiToken` in `core_impl.rs`).
Storage-key bookkeeping fields with no ledger semantics are omitted. -/
structure MultiToken where
  owner_id : AccountId
  extra_storage_in_bytes_per_nft_token : Nat
  extra_storage_in_bytes_per_ft_token_balance : Nat
  extra_storage_in_bytes_per_ft_token_creation : Nat
  token_type_index : List (TokenId × TokenType)
  nft_owner_by_id : List (TokenId × AccountId)
  ft_owners_by_id : List (TokenId × List (AccountId × Nat))
  ft_token_supply_by_id : List (TokenId × Nat)
  token_metadata_by_id : Option (List (TokenId × TokenMetadata))
  approvals_by_id : Option (List (TokenId × List (AccountId × Nat)))
  next_approval_id_by_id : Option (List (TokenId × Nat))
deriving DecidableEq, Repr

/-- Tags identifying the distinct panic sites of `core_impl.rs`. -/
inductive MTError where
  /-- `expect("Token not found")` in `internal_transfer`. -/
  | tokenNotFound
  /-- `panic!("Sender and receiver cannot be the same")` in
  `verify_ft_transferable`. -/
  | sameAccount
  /-- `expect("Could not find token")` in `verify_ft_transferable`. -/
  | couldNotFindToken
  /-- `expect("Not a token owner")` in `verify_ft_transferable`. -/
  | notATokenHolder
  /-- `env::panic(b"Unauthorized")` in `verify_update_nft_transferable`. -/
  | unauthorized
  /-- `env::panic(b"Sender not approved")` in
  `verify_update_nft_transferable`. -/
  | senderNotApproved
  /-- the `assert_eq!` on approval ids in `verify_update_nft_transferable`. -/
  | approvalMismatch
  /-- `panic!("Amount exceeds balance")` in `internal_transfer`. -/
  | insufficientBalance
  /-- `panic!("Number of token ids and amounts must be equal")` in
  `internal_transfer_batch`. -/
  | lengthMismatch
  /-- the `assert_ne!` "Current and next owner must differ" in
  `internal_transfer`. -/
  | currentOwnerIsReceiver
  /-- an `Option::unwrap()` on `None`. -/
  | unwrapNone
  /-- `expect("balance: token id not found")` in `balance_of` /
  `balance_of_batch`. -/
  | balanceTokenNotFound
  /-- `expect("supply: token id not found")` in `total_supply` /
  `total_supply_batch`. -/
  | supplyTokenNotFound
deriving DecidableEq, Repr

/-- `internal_transfer_unguarded` (core_impl.rs:230-243). Branches on the
type index: an NFT id gets its owner row overwritten with `toId`; an FT id
has the receiver's row in the inner balance map set to `amount` (the
source inserts `(to, amount)` and never reads the receiver's previous
balance nor touches `fromId`); an unindexed id is silently ignored. The
`unwrap` on the FT inner-map lookup can panic. -/
def internal_transfer_unguarded (st : MultiToken) (token_id : TokenId)
    (amount : Nat) (fromId toId : AccountId) : Except MTError MultiToken :=
  match alLookup st.token_type_index token_id with
  | some TokenType.NFT =>
    Except.ok { st with nft_owner_by_id := alInsert st.nft_owner_by_id token_id toId }
  | some TokenType.FT =>
    match alLookup st.ft_owners_by_id token_id with
    | none => Except.error MTError.unwrapNone
    | some inner =>
      Except.ok { st with
        ft_owners_by_id := alInsert st.ft_owners_by_id token_id (alInsert inner toId amount) }
  | none => Except.ok st

/-- `verify_update_nft_transferable` (core_impl.rs:246-279): remove this
token's approval map (returning the removed value), then authorize the
sender: the owner unconditionally, otherwise a sender listed in the
removed approval map, with an optional expected approval id that must
match exactly. Returns the owner together with the pre-removal approval
map. -/
def verify_update_nft_transferable (st : MultiToken) (token_id : TokenId)
    (sender_id owner_id : AccountId) (approval_id : Option Nat) :
    Except MTError ((AccountId × Option (List (AccountId × Nat))) × MultiToken) :=
  let approved_account_ids := st.approvals_by_id.bind (fun by_id => alLookup by_id token_id)
  let st' := { st with approvals_by_id := st.approvals_by_id.map (fun by_id => alRemove by_id token_id) }
  if sender_id = owner_id then
    Except.ok ((owner_id, approved_account_ids), st')
  else
    match approved_account_ids with
    | none => Except.error MTError.unauthorized
    | some ids =>
      match alLookup ids sender_id with
      | none => Except.error MTError.senderNotApproved
      | some actual_approval_id =>
        match approval_id with
        | none => Except.ok ((owner_id, approved_account_ids), st')
        | some enforced_approval_id =>
          if actual_approval_id = enforced_approval_id then
            Except.ok ((owner_id, approved_account_ids), st')
          else
            Except.error MTError.approvalMismatch

/-- `verify_ft_transferable` (core_impl.rs:281-287): sender and receiver
must differ, the fungible token must exist, and the sender must hold a
balance row (existence only; the magnitude is not checked here). -/
def verify_ft_transferable (st : MultiToken) (token_id : TokenId)
    (sender_id receiver_id : AccountId) : Except MTError Unit :=
  if sender_id = receiver_id then
    Except.error MTError.sameAccount
  else
    match alLookup st.ft_owners_by_id token_id with
    | none => Except.error MTError.couldNotFindToken
    | some token_holders =>
      match alLookup token_holders sender_id with
      | none => Except.error MTError.notATokenHolder
      | some _ => Except.ok ()

/-- `internal_transfer` (core_impl.rs:292-327). Looks up the token type;
for an NFT, reads the current owner, requires owner ≠ receiver, runs
`verify_update_nft_transferable`, then unwraps the sender's balance from
the *fungible* sub-ledger (`ft_owners_by_id`) and compares it with
`amount`; for an FT, runs `verify_ft_transferable`. Finally calls
`internal_transfer_unguarded` and returns the previous owner with the
pre-removal approval map. -/
def internal_transfer (st : MultiToken) (sender_id receiver_id : AccountId)
    (token_id : TokenId) (amount : Nat) (approval_id : Option Nat)
    (memo : Option String) :
    Except MTError ((AccountId × Option (List (AccountId × Nat))) × MultiToken) :=
  match alLookup st.token_type_index token_id with
  | none => Except.error MTError.tokenNotFound
  | some TokenType.NFT =>
    match alLookup st.nft_owner_by_id token_id with
    | none => Except.error MTError.unwrapNone
    | some owner_id =>
      if owner_id = receiver_id then
        Except.error MTError.currentOwnerIsReceiver
      else
        match verify_update_nft_transferable st token_id sender_id owner_id approval_id with
        | Except.error e => Except.error e
        | Except.ok (owner_and_approval, st') =>
          match (alLookup st'.ft_owners_by_id token_id).bind (fun by_id => alLookup by_id sender_id) with
          | none => Except.error MTError.unwrapNone
          | some balance =>
            if balance < amount then
              Except.error MTError.insufficientBalance
            else
              match internal_transfer_unguarded st' token_id amount owner_id receiver_id with
              | Except.error e => Except.error e
              | Except.ok st'' => Except.ok (owner_and_approval, st'')
  | some TokenType.FT =>
    match verify_ft_transferable st token_id sender_id receiver_id with
    | Except.error e => Except.error e
    | Except.ok _ =>
      match internal_transfer_unguarded st token_id amount sender_id receiver_id with
      | Except.error e => Except.error e
      | Except.ok st' => Except.ok ((sender_id, none), st')

/-- The per-item loop of `internal_transfer_batch`: apply
`internal_transfer` in array order, threading the state and collecting
the `(previous_owner, previous_approvals)` pairs; the first panic aborts
the whole batch. -/
def internal_transfer_list (sender_id receiver_id : AccountId)
    (approval_id : Option Nat) (memo : Option String) :
    MultiToken → List (TokenId × Nat) →
    Except MTError (List (AccountId × Option (List (AccountId × Nat))) × MultiToken)
  | st, [] => Except.ok ([], st)
  | st, (token_id, amount) :: rest =>
    match internal_transfer st sender_id receiver_id token_id amount approval_id memo with
    | Except.error e => Except.error e
    | Except.ok (pair, st') =>
      match internal_transfer_list sender_id receiver_id approval_id memo st' rest with
      | Except.error e => Except.error e
      | Except.ok (pairs, st'') => Except.ok (pair :: pairs, st'')

/-- `internal_transfer_batch` (core_impl.rs:329-342): panic with the
length-mismatch message unless `token_ids` and `amounts` have equal
length, then run `internal_transfer` per index in order. -/
def internal_transfer_batch (st : MultiToken) (sender_id receiver_id : AccountId)
    (token_ids : List TokenId) (amounts : List Nat) (memo : Option String)
    (approval_id : Option Nat) :
    Except MTError (List (AccountId × Option (List (AccountId × Nat))) × MultiToken) :=
  if token_ids.length ≠ amounts.length then
    Except.error MTError.lengthMismatch
  else
    internal_transfer_list sender_id receiver_id approval_id memo st (token_ids.zip amounts)

/-- `multi_transfer` (core_impl.rs:349-359): delegate to
`internal_transfer` with the caller as sender (the `assert_one_yocto`
deposit check is a host concern and is omitted). -/
def multi_transfer (st : MultiToken) (sender_id receiver_id : AccountId)
    (token_id : TokenId) (amount : Nat) (approval_id : Option Nat)
    (memo : Option String) : Except MTError MultiToken :=
  match internal_transfer st sender_id receiver_id token_id amount approval_id memo with
  | Except.error e => Except.error e
  | Except.ok (_, st') => Except.ok st'

/-- The arguments the transfer-and-notify entry points schedule for the
resolution callback `multi_resolve_transfer` (the `ext_self` promise in
core_impl.rs:384-393 and 438-447). -/
structure ResolveArgs where
  previous_owner_ids : List AccountId
  receiver_id : AccountId
  token_ids : List TokenId
  amounts : List Nat
  approved_account_ids : List (Option (List (AccountId × Nat)))
deriving DecidableEq, Repr

/-- `multi_transfer_call` (core_impl.rs:361-395): transfer synchronously
via `internal_transfer`, then schedule the receiver notification and the
resolution callback; modelled as returning the mutated state together
with the arguments handed to `multi_resolve_transfer`. -/
def multi_transfer_call (st : MultiToken) (sender_id receiver_id : AccountId)
    (token_id : TokenId) (amount : Nat) (approval_id : Option Nat)
    (memo : Option String) (msg : String) :
    Except MTError (ResolveArgs × MultiToken) :=
  match internal_transfer st sender_id receiver_id token_id amount approval_id memo with
  | Except.error e => Except.error e
  | Except.ok ((old_owner, old_approvals), st') =>
    Except.ok ({ previous_owner_ids := [old_owner]
                 receiver_id := receiver_id
                 token_ids := [token_id]
                 amounts := [amount]
                 approved_account_ids := [old_approvals] }, st')

/-- `multi_batch_transfer` (core_impl.rs:397-409): delegate to
`internal_transfer_batch`. -/
def multi_batch_transfer (st : MultiToken) (sender_id receiver_id : AccountId)
    (token_ids : List TokenId) (amounts : List Nat) (approval_id : Option Nat)
    (memo : Option String) (msg : String) : Except MTError MultiToken :=
  match internal_transfer_batch st sender_id receiver_id token_ids amounts memo approval_id with
  | Except.error e => Except.error e
  | Except.ok (_, st') => Except.ok st'

/-- `multi_batch_transfer_call` (core_impl.rs:411-449): batch-transfer
synchronously, collect the previous owners and approval maps from the
returned pairs, and schedule notification plus resolution with them. -/
def multi_batch_transfer_call (st : MultiToken) (sender_id receiver_id : AccountId)
    (token_ids : List TokenId) (amounts : List Nat) (approval_id : Option Nat)
    (memo : Option String) (msg : String) :
    Except MTError (ResolveArgs × MultiToken) :=
  match internal_transfer_batch st sender_id receiver_id token_ids amounts memo approval_id with
  | Except.error e => Except.error e
  | Except.ok (prev_state, st') =>
    Except.ok ({ previous_owner_ids := prev_state.map (fun p => p.1)
                 receiver_id := receiver_id
                 token_ids := token_ids
                 amounts := amounts
                 approved_account_ids := prev_state.map (fun p => p.2) }, st')

/-- `balance_of` (core_impl.rs:451-454): look up the fungible token's
holder map (`expect`: panic if the id is unknown to the fungible
sub-ledger), then `unwrap` the owner's row — a missing row panics rather
than reporting zero. -/
def balance_of (st : MultiToken) (owner_id : AccountId) (token_id : TokenId) :
    Except MTError Nat :=
  match alLookup st.ft_owners_by_id token_id with
  | none => Except.error MTError.balanceTokenNotFound
  | some ft_token =>
    match alLookup ft_token owner_id with
    | none => Except.error MTError.unwrapNone
    | some balance => Except.ok balance

/-- `balance_of_batch` (core_impl.rs:456-461): map the same lookup over
`token_ids`, any panic aborting the whole call. -/
def balance_of_batch (st : MultiToken) (owner_id : AccountId) :
    List TokenId → Except MTError (List Nat)
  | [] => Except.ok []
  | token_id :: rest =>
    match alLookup st.ft_owners_by_id token_id with
    | none => Except.error MTError.balanceTokenNotFound
    | some ft_token =>
      match alLookup ft_token owner_id with
      | none => Except.error MTError.unwrapNone
      | some balance =>
        match balance_of_batch st owner_id rest with
        | Except.error e => Except.error e
        | Except.ok rest' => Except.ok (balance :: rest')

/-- `total_supply` (core_impl.rs:463-465). -/
def total_supply (st : MultiToken) (token_id : TokenId) : Except MTError Nat :=
  match alLookup st.ft_token_supply_by_id token_id with
  | none => Except.error MTError.supplyTokenNotFound
  | some supply => Except.ok supply

/-- `total_supply_batch` (core_impl.rs:467-471). -/
def total_supply_batch (st : MultiToken) :
    List TokenId → Except MTError (List Nat)
  | [] => Except.ok []
  | token_id :: rest =>
    match alLookup st.ft_token_supply_by_id token_id with
    | none => Except.error MTError.supplyTokenNotFound
    | some supply =>
      match total_supply_batch st rest with
      | Except.error e => Except.error e
      | Except.ok rest' => Except.ok (supply :: rest')

/-- The `Token` view returned by `multi_token` (struct `Token` in
`token.rs`, reconstructed from its construction site in
core_impl.rs:481: `owner_id` and `supply` are plain fields obtained via
`?`, `metadata` and `approved_account_ids` are optional). -/
structure Token where
  token_id : TokenId
  token_type : TokenType
  owner_id : AccountId
  supply : Nat
  metadata : Option TokenMetadata
  approved_account_ids : Option (List (AccountId × Nat))
deriving DecidableEq, Repr

/-- `multi_token` (core_impl.rs:473-482): the `?` operators require the id
to have BOTH an `nft_owner_by_id` row AND an `ft_token_supply_by_id` row,
returning `None` otherwise; only then is the type index consulted
(`expect`: panic if unindexed) and the view assembled. -/
def multi_token (st : MultiToken) (token_id : TokenId) :
    Except MTError (Option Token) :=
  match alLookup st.nft_owner_by_id token_id with
  | none => Except.ok none
  | some owner_id =>
    match alLookup st.ft_token_supply_by_id token_id with
    | none => Except.ok none
    | some supply =>
      match alLookup st.token_type_index token_id with
      | none => Except.error MTError.tokenNotFound
      | some token_type =>
        Except.ok (some
          { token_id := token_id
            token_type := token_type
            owner_id := owner_id
            supply := supply
            metadata := st.token_metadata_by_id.bind (fun by_id => alLookup by_id token_id)
            approved_account_ids :=
              st.approvals_by_id.bind (fun by_id =>
                match alLookup by_id token_id with
                | some m => some m
                | none => some []) })

/-- The sentinel key `"a".repeat(64)` used by both storage probes for
their synthetic rows (`tmp_token_id` / `tmp_owner_id`). -/
def sentinel_key : String := String.mk (List.replicate 64 'a')

/-- Model of the host's `env::storage_usage()` byte counter: each
persisted row contributes a positive number of bytes, abstracted here as
one unit per row (outer rows and inner-map rows counted separately).
Creating an in-memory collection handle (`TreeMap::new`) writes nothing
to storage, and plain struct fields are not persisted until the call
ends, so only the collection rows count. -/
def storage_usage (st : MultiToken) : Nat :=
  st.token_type_index.length
  + st.nft_owner_by_id.length
  + (st.ft_owners_by_id.map (fun p => 1 + p.2.length)).sum
  + st.ft_token_supply_by_id.length
  + (match st.token_metadata_by_id with
     | none => 0
     | some by_id => by_id.length)
  + (match st.approvals_by_id with
     | none => 0
     | some by_id => (by_id.map (fun p => 1 + p.2.length)).sum)
  + (match st.next_approval_id_by_id with
     | none => 0
     | some by_id => by_id.length)

/-- `measure_min_ft_token_storage_cost` (core_impl.rs:150-170): record
usage, create a fresh in-memory balance map, set the creation cost to
`initial_storage_usage - env::storage_usage()` (initial minus current),
insert a synthetic supply row and a synthetic holder row, set the
balance-row cost to the usage delta, then remove only the
`ft_owners_by_id` entry — the synthetic `ft_token_supply_by_id` row is
never removed. -/
def measure_min_ft_token_storage_cost (st : MultiToken) : MultiToken :=
  let initial_storage_usage := storage_usage st
  let tmp_balance_lookup : List (AccountId × Nat) := []
  let st1 := { st with
    extra_storage_in_bytes_per_ft_token_creation := initial_storage_usage - storage_usage st }
  let storage_after_token_creation := storage_usage st1
  let tmp_token_id := sentinel_key
  let tmp_owner_id := sentinel_key
  let tmp_supply : Nat := 9999
  let st2 := { st1 with
    ft_token_supply_by_id := alInsert st1.ft_token_supply_by_id tmp_token_id tmp_supply }
  let tmp_balance_lookup := alInsert tmp_balance_lookup tmp_owner_id tmp_supply
  let st3 := { st2 with
    ft_owners_by_id := alInsert st2.ft_owners_by_id tmp_token_id tmp_balance_lookup }
  let st4 := { st3 with
    extra_storage_in_bytes_per_ft_token_balance :=
      storage_usage st3 - storage_after_token_creation }
  { st4 with ft_owners_by_id := alRemove st4.ft_owners_by_id tmp_token_id }

/-- The synthetic `TokenMetadata` row written by the NFT storage probe. -/
def probe_metadata : TokenMetadata :=
  { title := some sentinel_key
    description := some sentinel_key
    media := some sentinel_key
    media_hash := some (List.replicate 64 97)
    copies := some 1 }

/-- `measure_min_nft_token_storage_cost` (core_impl.rs:172-224): insert a
synthetic owner row, metadata row, approval map and next-approval row
(the optional ones only when the extension is enabled), record the usage
delta as the NFT cost, then remove all four synthetic rows. -/
def measure_min_nft_token_storage_cost (st : MultiToken) : MultiToken :=
  let initial_storage_usage := storage_usage st
  let tmp_token_id := sentinel_key
  let tmp_owner_id := sentinel_key
  let st1 := { st with
    nft_owner_by_id := alInsert st.nft_owner_by_id tmp_token_id tmp_owner_id }
  let st2 :=
    match st1.token_metadata_by_id with
    | none => st1
    | some by_id =>
      { st1 with token_metadata_by_id := some (alInsert by_id tmp_token_id probe_metadata) }
  let st3 :=
    match st2.approvals_by_id with
    | none => st2
    | some by_id =>
      { st2 with
        approvals_by_id := some (alInsert by_id tmp_token_id (alInsert [] tmp_owner_id 1)) }
  let st4 :=
    match st3.next_approval_id_by_id with
    | none => st3
    | some by_id =>
      { st3 with next_approval_id_by_id := some (alInsert by_id tmp_token_id 1) }
  let st5 := { st4 with
    extra_storage_in_bytes_per_nft_token := storage_usage st4 - initial_storage_usage }
  let st6 :=
    match st5.next_approval_id_by_id with
    | none => st5
    | some by_id =>
      { st5 with next_approval_id_by_id := some (alRemove by_id tmp_token_id) }
  let st7 :=
    match st6.approvals_by_id with
    | none => st6
    | some by_id => { st6 with approvals_by_id := some (alRemove by_id tmp_token_id) }
  let st8 :=
    match st7.token_metadata_by_id with
    | none => st7
    | some by_id => { st7 with token_metadata_by_id := some (alRemove by_id tmp_token_id) }
  { st8 with nft_owner_by_id := alRemove st8.nft_owner_by_id tmp_token_id }

/-- `MultiToken::new` (core_impl.rs:89-134): build the empty ledger (the
metadata and approval extensions are enabled by the corresponding flags,
mirroring the optional storage-key arguments), then run the two storage
probes exactly once. -/
def MultiToken.new (owner_id : AccountId) (with_metadata with_approval : Bool) :
    MultiToken :=
  let st : MultiToken :=
    { owner_id := owner_id
      extra_storage_in_bytes_per_nft_token := 0
      extra_storage_in_bytes_per_ft_token_balance := 0
      extra_storage_in_bytes_per_ft_token_creation := 0
      token_type_index := []
      nft_owner_by_id := []
      ft_owners_by_id := []
      ft_token_supply_by_id := []
      token_metadata_by_id := if with_metadata then some [] else none
      approvals_by_id := if with_approval then some [] else none
      next_approval_id_by_id := if with_approval then some [] else none }
  measure_min_nft_token_storage_cost (measure_min_ft_token_storage_cost st)

/-- Sum of all holder balances recorded for a fungible token id (the
quantity the spec's conservation invariant compares with `ft_supply`). -/
def ft_balance_sum (st : MultiToken) (token_id : TokenId) : Nat :=
  (((alLookup st.ft_owners_by_id token_id).getD []).map (fun p => p.2)).sum

/-- A concrete ledger with one fungible token `"t"`: supply 100, all
held by `"alice"`; the approval extension is enabled but empty. -/
def ftState : MultiToken :=
  { owner_id := "owner"
    extra_storage_in_bytes_per_nft_token := 0
    extra_storage_in_bytes_per_ft_token_balance := 0
    extra_storage_in_bytes_per_ft_token_creation := 0
    token_type_index := [("t", TokenType.FT)]
    nft_owner_by_id := []
    ft_owners_by_id := [("t", [("alice", 100)])]
    ft_token_supply_by_id := [("t", 100)]
    token_metadata_by_id := none
    approvals_by_id := some []
    next_approval_id_by_id := some [] }

/-- A concrete ledger with one non-fungible token `"n"` owned by
`"alice"`, with an approval for `"carol"` on record. -/
def nftState : MultiToken :=
  { owner_id := "owner"
    extra_storage_in_bytes_per_nft_token := 0
    extra_storage_in_bytes_per_ft_token_balance := 0
    extra_storage_in_bytes_per_ft_token_creation := 0
    token_type_index := [("n", TokenType.NFT)]
    nft_owner_by_id := [("n", "alice")]
    ft_owners_by_id := []
    ft_token_supply_by_id := []
    token_metadata_by_id := none
    approvals_by_id := some [("n", [("carol", 1)])]
    next_approval_id_by_id := some [("n", 2)] }

/-- C1: the claim says a successful fungible `transfer_one` debits the
sender by `amount` and credits the receiver by `amount`. On the ledger
with `alice` holding 100 of token `"t"`, transferring 40 to `bob`
succeeds but leaves `alice` at 100 (the claim requires 60): the code
never debits the sender and merely sets the receiver's row to `amount`. -/
theorem C1_ft_transfer_does_not_debit_sender :
    (internal_transfer ftState "alice" "bob" "t" 40 none none).map
      (fun r => (alLookup ((alLookup r.2.ft_owners_by_id "t").getD []) "alice",
                 alLookup ((alLookup r.2.ft_owners_by_id "t").getD []) "bob"))
      = Except.ok (some 100, some 40) := rfl

/-- C2: the claim says every transfer preserves
`sum(ft_balances[id]) = ft_supply[id]`. Starting from a ledger where the
sum (100) equals the supply (100), a single successful transfer of 40
from `alice` to `bob` yields a holder-balance sum of 140 while the
recorded supply stays 100 — the transfer creates 40 units. -/
theorem C2_transfer_breaks_supply_conservation :
    ft_balance_sum ftState "t" = 100 ∧
    total_supply ftState "t" = Except.ok 100 ∧
    (internal_transfer ftState "alice" "bob" "t" 40 none none).map
      (fun r => (ft_balance_sum r.2 "t", alLookup r.2.ft_token_supply_by_id "t"))
      = Except.ok (140, some 100) :=
  ⟨rfl, rfl, rfl⟩

/-- C3: the claim says an NFT transfer by its current owner to a distinct
receiver succeeds, reassigns ownership and returns the previous owner
with the pre-clear approval map. On the ledger where `"n"` is an NFT
owned by `alice`, the owner's transfer to `bob` instead panics: after
authorization the code unwraps the sender's balance from the *fungible*
sub-ledger, where an NFT id has no row. -/
theorem C3_nft_owner_transfer_panics :
    alLookup nftState.token_type_index "n" = some TokenType.NFT ∧
    alLookup nftState.nft_owner_by_id "n" = some "alice" ∧
    internal_transfer nftState "alice" "bob" "n" 1 none none
      = Except.error MTError.unwrapNone :=
  ⟨rfl, rfl, rfl⟩

/-- C4: the claim says a fungible transfer with `amount` strictly greater
than the sender's balance fails with `InsufficientBalance` and leaves the
ledger unmutated. With `alice` holding 100 of `"t"`, transferring 150
succeeds and mutates the ledger (setting `bob`'s row to 150): the
balance-sufficiency check is absent from the fungible branch. -/
theorem C4_ft_overdraw_succeeds :
    internal_transfer ftState "alice" "bob" "t" 150 none none =
      Except.ok (("alice", none),
        { ftState with ft_owners_by_id := [("t", [("alice", 100), ("bob", 150)])] }) :=
  rfl

/-- C5: the claim says `get_token` returns a populated view (never the
no-such-token result) for every id in the type index that lives in
exactly one sub-ledger. For the existing fungible token `"t"` and the
existing non-fungible token `"n"` the code returns `None`: its two `?`
operators require an id to have both an NFT owner row and an FT supply
row, which sub-ledger exclusivity rules out. -/
theorem C5_get_token_returns_none_for_existing_tokens :
    alLookup ftState.token_type_index "t" = some TokenType.FT ∧
    multi_token ftState "t" = Except.ok none ∧
    alLookup nftState.token_type_index "n" = some TokenType.NFT ∧
    multi_token nftState "n" = Except.ok none :=
  ⟨rfl, rfl, rfl, rfl⟩

/-- C6: the claim says the construction-time storage probe yields three
byte counts each strictly greater than zero and removes every synthetic
record, leaving the ledger with zero entries. On a fresh ledger the FT
creation count is 0 (it is computed as initial-usage minus current usage
right after creating an in-memory map that wrote nothing), and the
synthetic supply row under the 64-`'a'` sentinel key is never removed,
so `ft_token_supply_by_id` is left non-empty. -/
theorem C6_probe_zero_count_and_residue :
    (MultiToken.new "owner" true true).extra_storage_in_bytes_per_ft_token_creation = 0 ∧
    (MultiToken.new "owner" true true).ft_token_supply_by_id = [(sentinel_key, 9999)] :=
  ⟨rfl, rfl⟩

/-- C7: whenever `token_ids` and `amounts` have different lengths,
`internal_transfer_batch` fails with the length-mismatch panic before
any per-item transfer runs, so no mutation is committed (a panic reverts
the whole call). -/
theorem C7_length_mismatch_rejected (st : MultiToken)
    (sender_id receiver_id : AccountId) (token_ids : List TokenId)
    (amounts : List Nat) (memo : Option String) (approval_id : Option Nat)
    (h : token_ids.length ≠ amounts.length) :
    internal_transfer_batch st sender_id receiver_id token_ids amounts memo approval_id
      = Except.error MTError.lengthMismatch := by
  simp [internal_transfer_batch, h]

/-- Witness for C7 at a concrete mismatched batch. -/
theorem C7_length_mismatch_rejected_witness :
    (["t"] : List TokenId).length ≠ ([] : List Nat).length ∧
    internal_transfer_batch ftState "alice" "bob" ["t"] [] none none
      = Except.error MTError.lengthMismatch :=
  ⟨by decide,
   C7_length_mismatch_rejected ftState "alice" "bob" ["t"] [] none none (by decide)⟩

/-- C8: the claim says `balance_of` returns 0 for an account with no
balance row of an existing fungible token. For every ledger, every
fungible token id present in `ft_owners_by_id`, and every account
without a balance row in that token's holder map, the code instead
panics (`unwrap` of `None`, core_impl.rs:453) — absence and zero are
not treated as equivalent at the query interface. -/
theorem C8_balance_of_absent_row_panics (st : MultiToken)
    (owner_id : AccountId) (token_id : TokenId)
    (token_holders : List (AccountId × Nat))
    (h1 : alLookup st.ft_owners_by_id token_id = some token_holders)
    (h2 : alLookup token_holders owner_id = none) :
    balance_of st owner_id token_id = Except.error MTError.unwrapNone := by
  simp [balance_of, h1, h2]

/-- Witness for C8 on the ledger where `"t"` is held only by `alice` and
`bob` has no row. -/
theorem C8_balance_of_absent_row_panics_witness :
    alLookup ftState.ft_owners_by_id "t" = some [("alice", 100)] ∧
    alLookup [(("alice" : AccountId), (100 : Nat))] "bob" = none ∧
    balance_of ftState "bob" "t" = Except.error MTError.unwrapNone :=
  ⟨rfl, rfl,
   C8_balance_of_absent_row_panics ftState "bob" "t" [("alice", 100)] rfl rfl⟩

/-- C9: every transfer-and-notify call mutates the ledger synchronously,
exactly as the plain transfer does (both are the image of the same
`internal_transfer` / `internal_transfer_batch` run, so they fail alike
and produce the same post-state), and the `(previous_owner,
previous_approvals)` pair(s) captured by that mutation are exactly the
arguments scheduled for the `multi_resolve_transfer` resolution entry
point. -/
theorem C9_transfer_call_applies_then_hands_captured_pair
    (st : MultiToken) (sender_id receiver_id : AccountId) (token_id : TokenId)
    (token_ids : List TokenId) (amount : Nat) (amounts : List Nat)
    (approval_id : Option Nat) (memo : Option String) (msg : String) :
    multi_transfer_call st sender_id receiver_id token_id amount approval_id memo msg =
      (internal_transfer st sender_id receiver_id token_id amount approval_id memo).map
        (fun r => ({ previous_owner_ids := [r.1.1]
                     receiver_id := receiver_id
                     token_ids := [token_id]
                     amounts := [amount]
                     approved_account_ids := [r.1.2] }, r.2)) ∧
    multi_transfer st sender_id receiver_id token_id amount approval_id memo =
      (internal_transfer st sender_id receiver_id token_id amount approval_id memo).map
        (fun r => r.2) ∧
    multi_batch_transfer_call st sender_id receiver_id token_ids amounts approval_id memo msg =
      (internal_transfer_batch st sender_id receiver_id token_ids amounts memo approval_id).map
        (fun r => ({ previous_owner_ids := r.1.map (fun p => p.1)
                     receiver_id := receiver_id
                     token_ids := token_ids
                     amounts := amounts
                     approved_account_ids := r.1.map (fun p => p.2) }, r.2)) ∧
    multi_batch_transfer st sender_id receiver_id token_ids amounts approval_id memo msg =
      (internal_transfer_batch st sender_id receiver_id token_ids amounts memo approval_id).map
        (fun r => r.2) := by
  refine ⟨?_, ?_, ?_, ?_⟩
  · cases h : internal_transfer st sender_id receiver_id token_id amount approval_id memo with
    | error e => simp [multi_transfer_call, h, Except.map]
    | ok r => simp [multi_transfer_call, h, Except.map]
  · cases h : internal_transfer st sender_id receiver_id token_id amount approval_id memo with
    | error e => simp [multi_transfer, h, Except.map]
    | ok r => simp [multi_transfer, h, Except.map]
  · cases h : internal_transfer_batch st sender_id receiver_id token_ids amounts memo approval_id with
    | error e => simp [multi_batch_transfer_call, h, Except.map]
    | ok r => simp [multi_batch_transfer_call, h, Except.map]
  · cases h : internal_transfer_batch st sender_id receiver_id token_ids amounts memo approval_id with
    | error e => simp [multi_batch_transfer, h, Except.map]
    | ok r => simp [multi_batch_transfer, h, Except.map]

/-- C10: the batch queries are the pointwise maps of their single-item
queries: `balance_of_batch` agrees with mapping `balance_of` over the
ids and `total_supply_batch` with mapping `total_supply`, with identical
failure behaviour (the first panic on an unknown id or absent row aborts
both alike). -/
theorem C10_batch_queries_are_pointwise (st : MultiToken)
    (owner_id : AccountId) (token_ids : List TokenId) :
    balance_of_batch st owner_id token_ids = token_ids.mapM (balance_of st owner_id) ∧
    total_supply_batch st token_ids = token_ids.mapM (total_supply st) := by
  constructor
  · induction token_ids with
    | nil => rfl
    | cons hd tl ih =>
      rw [List.mapM_cons]
      cases h1 : alLookup st.ft_owners_by_id hd with
      | none =>
        simp only [balance_of_batch, balance_of, h1]
        rfl
      | some ft_token =>
        cases h2 : alLookup ft_token owner_id with
        | none =>
          simp only [balance_of_batch, balance_of, h1, h2]
          rfl
        | some b =>
          simp only [balance_of_batch, balance_of, h1, h2, ih]
          cases tl.mapM (balance_of st owner_id) <;> rfl
  · induction token_ids with
    | nil => rfl
    | cons hd tl ih =>
      rw [List.mapM_cons]
      cases h1 : alLookup st.ft_token_supply_by_id hd with
      | none =>
        simp only [total_supply_batch, total_supply, h1]
        rfl
      | some supply =>
        simp only [total_supply_batch, total_supply, h1, ih]
        cases tl.mapM (total_supply st) <;> rfl

end MultiTokenStd
